import Mathlib

/-!
Verification of the worker lifecycle supervisor and CLI configuration logic
of the edge-runtime serving engine, as a shallow embedding in Lean 4.

The embedding covers:
- the worker event/outcome vocabulary (`WorkerEvents`);
- the production worker handler (`handle_error`, `handle_creation`) from
  `crates/base/src/rt_worker/implementation/default_handler.rs`;
- the CLI `start` subcommand configuration logic from `crates/cli/src/main.rs`
  (worker-pool parallelism under the oneshot policy, the `--max-parallelism`
  argument parser, the inspector option gating, the graceful-exit deadline);
- the end-to-end request/response scenario of
  `crates/base/tests/tls_invalid_data_tests.rs`.
-/

/-- An `anyhow::Error` as observed by the handler code: the handler only ever
consumes its textual rendering (`to_string`), so the model carries exactly
that rendering. -/
structure AnyhowError where
  msg : String
deriving DecidableEq, Repr

/-- The textual rendering of an error (`Error::to_string` in the source). -/
def AnyhowError.to_string (e : AnyhowError) : String := e.msg

/-- Rust's `str::ends_with(pat)`, embedded over the character sequence of the
string: `s` ends with `pat` when `pat` is a suffix of `s`. -/
def string_ends_with (s pat : String) : Bool :=
  pat.data.isSuffixOf s.data

/-- The closed set of terminal worker events, from the `event_worker::events`
vocabulary as used by the handler: `BootFailure { msg }`,
`UncaughtException { exception, cpu_time_used }`,
`EventLoopCompleted` (a pseudo event with no payload), and
`Terminated { reason }` for outcomes pushed by an external authority on the
termination channel. -/
inductive WorkerEvents where
  | BootFailure (msg : String)
  | UncaughtException (exception : String) (cpu_time_used : Nat)
  | EventLoopCompleted
  | Terminated (reason : String)
deriving DecidableEq, Repr

/-- The result of the execution engine's run-to-completion call
`created_rt.run(unix_stream_rx)`: either `Ok(())` or an error. -/
def RunResult : Type := Except AnyhowError Unit

/-- The state of the oneshot termination receiver at the moment the handler
awaits it: `some ev` when the authoritative outcome `ev` has been (or will be)
sent on the channel, `none` when the sender was dropped without a value, in
which case `termination_event_rx.await.unwrap()` panics. -/
def TerminationRx : Type := Option WorkerEvents

/-- The value a completed handler future resolves to:
`Result<WorkerEvents, Error>` in the source. -/
def HandlerResult : Type := Except AnyhowError WorkerEvents

/-- `handle_error` from `default_handler.rs`: logs the error, then returns
`Ok(WorkerEvents::BootFailure { msg: error.to_string() })`. -/
def handle_error (error : AnyhowError) : HandlerResult :=
  Except.ok (WorkerEvents.BootFailure (AnyhowError.to_string error))

/-- `handle_creation` from `default_handler.rs`, after the run call resolved
to `run_result`. On `Err(err)` with `err.to_string()` ending in
"execution terminated" it awaits the termination receiver and unwraps it
(`none` output models the panic of `unwrap` on an empty, closed receiver);
on any other error it resolves to `Ok(UncaughtException { exception,
cpu_time_used: 0 })`; on `Ok(())` it resolves to
`Ok(EventLoopCompleted)`. -/
def handle_creation (run_result : RunResult)
    (termination_event_rx : TerminationRx) : Option HandlerResult :=
  match run_result with
  | Except.error err =>
      let err_string := AnyhowError.to_string err
      if string_ends_with err_string "execution terminated" then
        match termination_event_rx with
        | some ev => some (Except.ok ev)
        | none => none
      else
        some (Except.ok (WorkerEvents.UncaughtException err_string 0))
  | Except.ok () => some (Except.ok WorkerEvents.EventLoopCompleted)

/-- The deliberate-termination condition the handler tests on the run call's
error text: the message ends with the fixed substring
"execution terminated". -/
def is_termination_error (err : AnyhowError) : Bool :=
  string_ends_with (AnyhowError.to_string err) "execution terminated"

/-- C1: a run failure whose message satisfies the deliberate-termination
condition ("execution terminated") resolves to exactly the value carried on
the termination receiver — never a locally constructed `UncaughtException`
or `EventLoopCompleted`. -/
theorem run_terminated_yields_termination_rx_value
    (err : AnyhowError) (ev : WorkerEvents)
    (h : is_termination_error err = true) :
    handle_creation (Except.error err) (some ev) = some (Except.ok ev) := by
  simp [handle_creation, is_termination_error] at h ⊢
  simp [h]

/-- Witness for C1 at a concrete input: the run call fails with message
"execution terminated" while `Terminated "cpu budget"` sits on the
termination receiver, and the handler resolves to that receiver value. -/
theorem run_terminated_yields_termination_rx_value_witness :
    handle_creation (Except.error ⟨"execution terminated"⟩)
      (some (WorkerEvents.Terminated "cpu budget"))
      = some (Except.ok (WorkerEvents.Terminated "cpu budget")) :=
  run_terminated_yields_termination_rx_value
    ⟨"execution terminated"⟩ (WorkerEvents.Terminated "cpu budget") (by decide)

/-- C2: a "terminated" run exit with an empty termination receiver is a
contract violation: the handler panics (models the `unwrap` abort) rather
than resolving to any outcome. -/
theorem run_terminated_empty_rx_panics
    (err : AnyhowError) (h : is_termination_error err = true) :
    handle_creation (Except.error err) none = none := by
  simp [handle_creation, is_termination_error] at h ⊢
  simp [h]

/-- Witness for C2 at a concrete input: message "execution terminated" with
an empty receiver aborts. -/
theorem run_terminated_empty_rx_panics_witness :
    handle_creation (Except.error ⟨"execution terminated"⟩) none = none :=
  run_terminated_empty_rx_panics ⟨"execution terminated"⟩ (by decide)

/-- C3: a run failure whose message does not satisfy the
deliberate-termination condition resolves — for every state of the
termination receiver, hence without consuming it — to
`UncaughtException` carrying the raw message and the zero
`cpu_time_used` sentinel; never `EventLoopCompleted`, never a panic. -/
theorem run_failed_yields_uncaught_exception
    (err : AnyhowError) (rx : TerminationRx)
    (h : is_termination_error err = false) :
    handle_creation (Except.error err) rx
      = some (Except.ok
          (WorkerEvents.UncaughtException (AnyhowError.to_string err) 0)) := by
  simp [handle_creation, is_termination_error] at h ⊢
  simp [h]

/-- Witness for C3 at a concrete input: a plain "out of memory" failure with
an empty receiver classifies as `UncaughtException "out of memory" 0`. -/
theorem run_failed_yields_uncaught_exception_witness :
    handle_creation (Except.error ⟨"out of memory"⟩) none
      = some (Except.ok (WorkerEvents.UncaughtException "out of memory" 0)) :=
  run_failed_yields_uncaught_exception ⟨"out of memory"⟩ none (by decide)

/-- C4: a successful run call resolves — for every state of the termination
receiver, hence without consuming it — to `EventLoopCompleted`. -/
theorem run_ok_yields_event_loop_completed (rx : TerminationRx) :
    handle_creation (Except.ok ()) rx
      = some (Except.ok WorkerEvents.EventLoopCompleted) := by
  simp [handle_creation]

/-- C5: an instantiation error is classified by `handle_error` as an `Ok`
result carrying `BootFailure` with the error's textual rendering — never a
raw error, and with no termination-receiver argument in its signature at
all. -/
theorem handle_error_yields_boot_failure (error : AnyhowError) :
    handle_error error
      = Except.ok (WorkerEvents.BootFailure (AnyhowError.to_string error)) := by
  simp [handle_error]

/-- The worker pool supervisor policy selected by `--policy`: one of
`per_worker`, `per_request`, `oneshot`. -/
inductive SupervisorPolicy where
  | per_worker
  | per_request
  | oneshot
deriving DecidableEq, Repr

/-- `SupervisorPolicy::is_oneshot`. -/
def SupervisorPolicy.is_oneshot : SupervisorPolicy → Bool
  | SupervisorPolicy.oneshot => true
  | _ => false

/-- The maximum-worker-count argument and the warning flag computed in `main`
when constructing the worker pool policy: under the oneshot policy (`if let
Some(true) = maybe_supervisor_policy.map(is_oneshot)`) a configured
parallelism of `0` or greater than `1` emits a warning, and the count passed
to the policy constructor is `Some(1)` unconditionally; under any other
policy the configured `--max-parallelism` value is passed through and no
warning is emitted. -/
def pool_worker_count_and_warning
    (maybe_supervisor_policy : Option SupervisorPolicy)
    (maybe_max_parallelism : Option Nat) : Option Nat × Bool :=
  if maybe_supervisor_policy.map SupervisorPolicy.is_oneshot = some true then
    match maybe_max_parallelism with
    | some parallelism =>
        if parallelism == 0 || parallelism > 1 then
          (some 1, true)
        else
          (some 1, false)
    | none => (some 1, false)
  else
    (maybe_max_parallelism, false)

/-- C6: under the oneshot policy the pool is constructed with a worker count
of exactly 1 regardless of the configured `--max-parallelism`, and the
warning fires exactly when a parallelism value was configured and was not
already 1; under any non-oneshot policy the configured value passes through
unchanged with no warning. -/
theorem oneshot_forces_single_worker
    (p : Option SupervisorPolicy) (mmp : Option Nat) :
    (p.map SupervisorPolicy.is_oneshot = some true →
      (pool_worker_count_and_warning p mmp).1 = some 1 ∧
      ((pool_worker_count_and_warning p mmp).2 = true ↔
        ∃ n, mmp = some n ∧ n ≠ 1)) ∧
    (p.map SupervisorPolicy.is_oneshot ≠ some true →
      pool_worker_count_and_warning p mmp = (mmp, false)) := by
  constructor
  · intro h
    cases mmp with
    | none => simp [pool_worker_count_and_warning, h]
    | some n =>
        by_cases hn : n = 1
        · subst hn
          simp [pool_worker_count_and_warning, h]
        · have hcond : (n == 0 || n > 1) = true := by
            simp
            omega
          simp [pool_worker_count_and_warning, h, hcond, hn]
  · intro h
    simp only [pool_worker_count_and_warning, if_neg h]

/-- Witness for C6 at a concrete input: the oneshot policy with a configured
parallelism of 4 yields worker count 1 and fires the warning. -/
theorem oneshot_forces_single_worker_witness :
    (pool_worker_count_and_warning (some SupervisorPolicy.oneshot)
        (some 4)).1 = some 1 ∧
    ((pool_worker_count_and_warning (some SupervisorPolicy.oneshot)
        (some 4)).2 = true ↔ ∃ n, (some 4 : Option Nat) = some n ∧ n ≠ 1) :=
  (oneshot_forces_single_worker (some SupervisorPolicy.oneshot) (some 4)).1
    (by decide)

/-- The `--max-parallelism` value parser from the `start` subcommand: the
argument text is parsed as a `u32` (values at or above `2 ^ 32` fail to
parse) and then checked against the declared range `1..9999`; an accepted
value is widened to `usize` unchanged. `none` is a parse-time rejection. -/
def max_parallelism_range_check (value : Nat) : Option Nat :=
  if value < 2 ^ 32 then
    if 1 ≤ value ∧ value < 9999 then some value else none
  else
    none

/-- C8: a `--max-parallelism` of 0 is rejected at argument-parse time, and
every value the parser accepts lies in the bounded range starting at 1. -/
theorem max_parallelism_at_least_one :
    max_parallelism_range_check 0 = none ∧
    ∀ value accepted, max_parallelism_range_check value = some accepted →
      1 ≤ accepted ∧ accepted < 9999 := by
  constructor
  · decide
  · intro v a h
    unfold max_parallelism_range_check at h
    split at h
    · split at h
      · injection h with hva
        subst hva
        omega
      · exact absurd h (by simp)
    · exact absurd h (by simp)

/-- Witness for C8 at a concrete input: 4 parses successfully and the
accepted value lies in the range. -/
theorem max_parallelism_at_least_one_witness :
    max_parallelism_range_check 4 = some 4 ∧ 1 ≤ 4 ∧ 4 < 9999 :=
  ⟨by decide, max_parallelism_at_least_one.2 4 4 (by decide)⟩

/-- An inspector socket address (host and port) as given on the command
line; its internal structure is irrelevant to the gating logic. -/
def SocketAddr : Type := String

/-- The inspector configuration built by `get_inspector_option`: `Inspect`,
`WithBreak`, or `WithWait`, each carrying the socket address. -/
inductive InspectorOption where
  | Inspect (addr : SocketAddr)
  | WithBreak (addr : SocketAddr)
  | WithWait (addr : SocketAddr)

/-- `get_inspector_option` from `crates/cli/src/main.rs`: maps the winning
argument key of the inspector group to the matching constructor, and any
other key to an error. -/
def get_inspector_option (key : String) (addr : SocketAddr) :
    Except String InspectorOption :=
  match key with
  | "inspect" => Except.ok (InspectorOption.Inspect addr)
  | "inspect-brk" => Except.ok (InspectorOption.WithBreak addr)
  | "inspect-wait" => Except.ok (InspectorOption.WithWait addr)
  | key => Except.error ("invalid inspector key: " ++ key)

/-- The inspector gating in `main`: `inspector` is the winning inspector
flag (its group key and address) when any of `--inspect`, `--inspect-brk`
or `--inspect-wait` was given. If an inspector flag is present while the
selected policy is not oneshot, startup bails with an error before
`start_server` is reached; otherwise the option is built with
`get_inspector_option(..).unwrap()`. The outer `none` models that unwrap
panicking on an unknown key, which the argument group rules out. -/
def compute_maybe_inspector_option
    (maybe_supervisor_policy : Option SupervisorPolicy)
    (inspector : Option (String × SocketAddr)) :
    Option (Except String (Option InspectorOption)) :=
  if inspector.isSome &&
      !((maybe_supervisor_policy.map SupervisorPolicy.is_oneshot).getD false)
  then
    some (Except.error
      "specifying `oneshot` policy is required to enable the inspector feature")
  else
    match inspector with
    | some (key, addr) =>
        match get_inspector_option key addr with
        | Except.ok opt => some (Except.ok (some opt))
        | Except.error _ => none
    | none => some (Except.ok none)

/-- C9: when any inspector flag is given while the selected policy is not
oneshot, startup bails with an error before the server starts; and whenever
an inspector option is actually constructed, the selected policy is
oneshot. -/
theorem inspector_requires_oneshot
    (p : Option SupervisorPolicy) (insp : Option (String × SocketAddr)) :
    (insp.isSome = true →
      (p.map SupervisorPolicy.is_oneshot).getD false = false →
      ∃ e, compute_maybe_inspector_option p insp = some (Except.error e)) ∧
    (∀ opt,
      compute_maybe_inspector_option p insp = some (Except.ok (some opt)) →
      p.map SupervisorPolicy.is_oneshot = some true) := by
  constructor
  · intro hi ho
    simp [compute_maybe_inspector_option, hi, ho]
  · intro opt h
    cases p with
    | none =>
        exfalso
        cases insp with
        | none => simp [compute_maybe_inspector_option] at h
        | some ka => simp [compute_maybe_inspector_option] at h
    | some pol =>
        cases hb : pol.is_oneshot with
        | false =>
            exfalso
            cases insp with
            | none => simp [compute_maybe_inspector_option] at h
            | some ka => simp [compute_maybe_inspector_option, hb] at h
        | true => simp [hb]

/-- Witness for C9 at a concrete input: `--inspect 127.0.0.1:9229` under the
default `per_worker` policy produces a startup error. -/
theorem inspector_requires_oneshot_witness :
    ∃ e, compute_maybe_inspector_option (some SupervisorPolicy.per_worker)
        (some ("inspect", ("127.0.0.1:9229" : SocketAddr)))
      = some (Except.error e) :=
  (inspector_requires_oneshot (some SupervisorPolicy.per_worker)
    (some ("inspect", ("127.0.0.1:9229" : SocketAddr)))).1 rfl rfl

/-- The `--graceful-exit-timeout` argument as clap resolves it: the value
given on the command line, or the declared default value `0` when absent
(the argument carries a default value of "0"). -/
def graceful_exit_timeout_arg (cmdline : Option Nat) : Option Nat :=
  match cmdline with
  | some seconds => some seconds
  | none => some 0

/-- The `graceful_exit_deadline_sec` server flag built in `main`:
`graceful_exit_timeout.unwrap_or(0)`. -/
def graceful_exit_deadline_sec (cmdline : Option Nat) : Nat :=
  (graceful_exit_timeout_arg cmdline).getD 0

/-- C10: when `--graceful-exit-timeout` is not given on the command line,
the server is configured with a graceful exit deadline of exactly 0
seconds. -/
theorem graceful_exit_deadline_defaults_to_zero :
    graceful_exit_deadline_sec none = 0 := by
  simp [graceful_exit_deadline_sec, graceful_exit_timeout_arg]

/-- An HTTP request as routed to a worker: method and URI. -/
structure Request where
  method : String
  uri : String
deriving DecidableEq, Repr

/-- An HTTP response as observed by the test: status code and the fully
read body. -/
structure Response where
  status : Nat
  body : String
deriving DecidableEq, Repr

/-- Modelled from the spec: the execution engine, `create_worker`, and the
worker request channel live outside `src/` (only the integration test is
present). Per the end-to-end property, the `tls_invalid_data` service under
test is configured to answer any GET request with status 200 and the body
`\x7b"passed":true\x7d`; a non-GET request is outside the configured
behavior. -/
def tls_invalid_data_service (req : Request) : Option Response :=
  if req.method = "GET" then
    some { status := 200, body := "\x7b\"passed\":true\x7d" }
  else
    none

/-- Modelled from the spec: delivering a routed request to a live worker
resolves the request's single-use response channel with exactly the
response the engine produced; `none` models a dropped channel, i.e. an
error or a hang, which the plumbing never introduces by itself. -/
def resolve_routed_request (service : Request → Option Response)
    (req : Request) : Option Response :=
  service req

/-- C7: a GET request to the worker configured to answer any GET with
status 200 and body `\x7b"passed":true\x7d` resolves the response channel
with exactly that status and body, for every URI, rather than an error or
a hang. -/
theorem get_request_resolves_passed_true (uri : String) :
    resolve_routed_request tls_invalid_data_service
        { method := "GET", uri := uri }
      = some { status := 200, body := "\x7b\"passed\":true\x7d" } := by
  simp [resolve_routed_request, tls_invalid_data_service]
